import Mathlib

/-!
Verification of the VPP TCP core header (src/vnet/tcp/tcp.h) against its
natural-language specification.

The C code is shallowly embedded: machine `u32`/`u16` values are `Nat`
with explicit reduction modulo `2^32` where C overflow semantics matter,
`int` intermediates are interpreted through a two's-complement view
(`toI32`), `f64` arithmetic is modelled over `ℚ` (exact arithmetic; the
properties checked here are far coarser than rounding error), `ASSERT`
failures surface as `Option.none`, and the external timer wheel
(vppinfra's `tw_timer_*_16t_2w_512sl`, not part of this translation unit)
is an abstract state type with start/stop/update operations.
-/

/-- The C `u32` modulus `2^32`. -/
def u32M : Nat := 4294967296

/-- C `u32` addition: wraps modulo `2^32`. -/
def u32add (a b : Nat) : Nat := (a + b) % u32M

/-- C `u32` subtraction: wraps modulo `2^32`. -/
def u32sub (a b : Nat) : Nat := (a % u32M + u32M - b % u32M) % u32M

/-- Reinterpret a `u32` bit pattern as a C `int` (two's complement). -/
def toI32 (n : Nat) : Int := if n < 2147483648 then (n : Int) else (n : Int) - u32M

/-- The `#define TCP_TICK 0.001`: TCP tick period in seconds (f64, modelled in ℚ). -/
def TCP_TICK : ℚ := 1 / 1000

/-- The `#define THZ (u32)(1/TCP_TICK)`: tick frequency; the f64 quotient is 1000
and the `u32` cast truncates to 1000. -/
def THZ : Nat := (⌊1 / TCP_TICK⌋).toNat

/-- The `#define TCP_TIMER_TICK 0.1`: timer wheel tick in seconds. -/
def TCP_TIMER_TICK : ℚ := 1 / 10

/-- The `#define TCP_RTO_MIN 0.2 * THZ`: minimum RTO in TCP ticks; the f64
product `0.2 * 1000` is exactly 200 (modelled in ℚ). -/
def TCP_RTO_MIN : ℚ := (2 / 10) * (THZ : ℚ)

/-- The `#define TCP_RTO_MAX 60 * THZ`. -/
def TCP_RTO_MAX : Nat := 60 * THZ

/-- The `#define TCP_TIMER_HANDLE_INVALID ((u32) ~0)`. -/
def TCP_TIMER_HANDLE_INVALID : Nat := 4294967295

/-- The `foreach_tcp_fsm_state` state enumeration (RFC793 states). -/
inductive tcp_state_t where
  | CLOSED
  | LISTEN
  | SYN_SENT
  | SYN_RCVD
  | ESTABLISHED
  | CLOSE_WAIT
  | FIN_WAIT_1
  | LAST_ACK
  | CLOSING
  | FIN_WAIT_2
  | TIME_WAIT
  deriving DecidableEq, Fintype, Repr

/-- The enumerators in the order the `foreach_tcp_fsm_state` macro lists
them; a C enum assigns consecutive values starting at 0 in this order. -/
def tcp_fsm_states : List tcp_state_t :=
  [.CLOSED, .LISTEN, .SYN_SENT, .SYN_RCVD, .ESTABLISHED, .CLOSE_WAIT,
   .FIN_WAIT_1, .LAST_ACK, .CLOSING, .FIN_WAIT_2, .TIME_WAIT]

/-- Numeric value of each `TCP_STATE_*` enumerator (position in the macro list). -/
def tcp_state_t.code : tcp_state_t → Nat
  | .CLOSED => 0
  | .LISTEN => 1
  | .SYN_SENT => 2
  | .SYN_RCVD => 3
  | .ESTABLISHED => 4
  | .CLOSE_WAIT => 5
  | .FIN_WAIT_1 => 6
  | .LAST_ACK => 7
  | .CLOSING => 8
  | .FIN_WAIT_2 => 9
  | .TIME_WAIT => 10

/-- The `TCP_N_STATES`: the enumerator that follows the macro-generated list,
i.e. the number of states. -/
def TCP_N_STATES : Nat := tcp_fsm_states.length

/-- The `foreach_tcp_timer` timer-kind enumeration. -/
inductive tcp_timers_e where
  | RETRANSMIT
  | DELACK
  | PERSIST
  | WAITCLOSE
  | RETRANSMIT_SYN
  deriving DecidableEq, Fintype, Repr

/-- The timer kinds in `foreach_tcp_timer` macro order. -/
def tcp_timer_kinds : List tcp_timers_e :=
  [.RETRANSMIT, .DELACK, .PERSIST, .WAITCLOSE, .RETRANSMIT_SYN]

/-- Numeric value of each `TCP_TIMER_*` enumerator. -/
def tcp_timers_e.code : tcp_timers_e → Nat
  | .RETRANSMIT => 0
  | .DELACK => 1
  | .PERSIST => 2
  | .WAITCLOSE => 3
  | .RETRANSMIT_SYN => 4

/-- The `TCP_N_TIMERS`: number of timer kinds. -/
def TCP_N_TIMERS : Nat := tcp_timer_kinds.length

/-- The `tcp_lookup_dispatch_t`: one dispatch-table entry, a next-node index
and an error code (both `u8`). -/
structure tcp_lookup_dispatch_t where
  next : Fin 256
  error : Fin 256
  deriving DecidableEq

/-- The `dispatch_table[TCP_N_STATES][64]` field of `tcp_main_t`: a total
map from (state, 6-bit flag combination) to a dispatch entry. -/
def tcp_dispatch_table : Type :=
  Fin TCP_N_STATES → Fin 64 → tcp_lookup_dispatch_t

/-- The receive-options fields the embedded functions read.
`tcp_opts_sack_permitted` (a flag test defined in tcp_packet.h, outside
this translation unit) is carried as the boolean it computes. -/
structure tcp_options_t where
  sack_permitted : Bool
  deriving DecidableEq, Repr

/-- The `sack_scoreboard_t` aggregate counters read by `tcp_bytes_out`. -/
structure sack_scoreboard_t where
  sacked_bytes : Nat
  lost_bytes : Nat
  deriving DecidableEq, Repr

/-- The fields of `tcp_connection_t` read or written by the functions
verified here.  `timers` is the `u32 timers[TCP_N_TIMERS]` array;
`c_thread_index` and `c_c_index` come from the embedded
`transport_connection_t`.  `mrtt_us` is an `f64`, modelled in ℚ. -/
structure tcp_connection_t where
  c_thread_index : Nat
  c_c_index : Nat
  state : Nat
  timers : List Nat
  snd_una : Nat
  snd_nxt : Nat
  snd_mss : Nat
  rcv_dupacks : Nat
  sack_sb : sack_scoreboard_t
  rcv_opts : tcp_options_t
  cwnd : Nat
  cwnd_acc_bytes : Nat
  tx_fifo_size : Nat
  snd_rxt_bytes : Nat
  rxt_delivered : Nat
  srtt : Nat
  mrtt_us : ℚ
  deriving DecidableEq, Repr

/-- The `tcp_cwnd_accumulate (tc, thresh, bytes)`:
```
tc->cwnd_acc_bytes += bytes;
if (tc->cwnd_acc_bytes >= thresh)
  {
    u32 inc = tc->cwnd_acc_bytes / thresh;
    tc->cwnd_acc_bytes -= inc * thresh;
    tc->cwnd += inc * tc->snd_mss;
    tc->cwnd = clib_min (tc->cwnd, tc->tx_fifo_size);
  }
```
All arithmetic is `u32`. -/
def tcp_cwnd_accumulate (tc : tcp_connection_t) (thresh bytes : Nat) :
    tcp_connection_t :=
  let acc := u32add tc.cwnd_acc_bytes bytes
  if thresh ≤ acc then
    let inc := acc / thresh
    let acc' := u32sub acc (inc * thresh)
    let cwnd' := u32add tc.cwnd (inc * tc.snd_mss % u32M)
    { tc with cwnd_acc_bytes := acc', cwnd := min cwnd' tc.tx_fifo_size }
  else
    { tc with cwnd_acc_bytes := acc }

/-- C1 — Beyond slow start, `tcp_cwnd_accumulate (tc, thresh, bytes)`
adds `bytes` to the accumulator `cwnd_acc_bytes`; when the accumulator
reaches `thresh > 0`, `cwnd` grows by exactly `⌊acc / thresh⌋ · snd_mss`
capped at `tx_fifo_size`, and the accumulator keeps the remainder
`acc % thresh`; when the accumulator stays below `thresh`, `cwnd` is
unchanged.  (Stated away from `u32` wrap-around: the updated accumulator
and the incremented window stay below `2^32`.) -/
theorem C1_cwnd_accumulate (tc : tcp_connection_t) (thresh bytes : Nat)
    (hthresh : 0 < thresh)
    (hacc : tc.cwnd_acc_bytes + bytes < u32M)
    (hcwnd : tc.cwnd + (tc.cwnd_acc_bytes + bytes) / thresh * tc.snd_mss < u32M) :
    (thresh ≤ tc.cwnd_acc_bytes + bytes →
      (tcp_cwnd_accumulate tc thresh bytes).cwnd =
        min (tc.cwnd + (tc.cwnd_acc_bytes + bytes) / thresh * tc.snd_mss)
          tc.tx_fifo_size ∧
      (tcp_cwnd_accumulate tc thresh bytes).cwnd_acc_bytes =
        (tc.cwnd_acc_bytes + bytes) % thresh) ∧
    (tc.cwnd_acc_bytes + bytes < thresh →
      (tcp_cwnd_accumulate tc thresh bytes).cwnd = tc.cwnd ∧
      (tcp_cwnd_accumulate tc thresh bytes).cwnd_acc_bytes =
        tc.cwnd_acc_bytes + bytes) := by
  have hmm : (tc.cwnd_acc_bytes + bytes) % u32M = tc.cwnd_acc_bytes + bytes :=
    Nat.mod_eq_of_lt hacc
  have hdm := Nat.div_add_mod (tc.cwnd_acc_bytes + bytes) thresh
  have hmlt : (tc.cwnd_acc_bytes + bytes) % thresh < thresh :=
    Nat.mod_lt _ hthresh
  have hple : (tc.cwnd_acc_bytes + bytes) / thresh * thresh ≤
      tc.cwnd_acc_bytes + bytes := Nat.div_mul_le_self _ _
  simp only [tcp_cwnd_accumulate, u32add, u32sub, hmm]
  constructor
  · intro hge
    rw [if_pos hge]
    refine ⟨?_, ?_⟩
    · show (tc.cwnd +
          (tc.cwnd_acc_bytes + bytes) / thresh * tc.snd_mss % u32M) % u32M ⊓
          tc.tx_fifo_size = _
      rw [Nat.mod_eq_of_lt
          (by omega : (tc.cwnd_acc_bytes + bytes) / thresh * tc.snd_mss < u32M),
        Nat.mod_eq_of_lt hcwnd]
    · show (tc.cwnd_acc_bytes + bytes +
          u32M - (tc.cwnd_acc_bytes + bytes) / thresh * thresh % u32M) % u32M = _
      rw [Nat.mod_eq_of_lt
          (by omega : (tc.cwnd_acc_bytes + bytes) / thresh * thresh < u32M)]
      generalize hq : (tc.cwnd_acc_bytes + bytes) / thresh = q at *
      rw [Nat.mul_comm thresh q] at hdm
      generalize hp : q * thresh = p at *
      simp only [u32M] at *
      omega
  · intro hlt
    rw [if_neg (by omega)]
    exact ⟨rfl, rfl⟩

/-- Witness for C1 at a concrete connection: `acc = 900 + 2600 = 3500`,
`thresh = 1000`, so `cwnd` grows by `3 · 1460 = 4380` (not capped) and the
accumulator keeps `500`. -/
theorem C1_cwnd_accumulate_witness :
    (0 < 1000 ∧ 900 + 2600 < u32M ∧ 10000 + (900 + 2600) / 1000 * 1460 < u32M) ∧
    ((tcp_cwnd_accumulate
        { c_thread_index := 0, c_c_index := 0, state := 4,
          timers := [TCP_TIMER_HANDLE_INVALID, TCP_TIMER_HANDLE_INVALID,
                     TCP_TIMER_HANDLE_INVALID, TCP_TIMER_HANDLE_INVALID,
                     TCP_TIMER_HANDLE_INVALID],
          snd_una := 0, snd_nxt := 0, snd_mss := 1460, rcv_dupacks := 0,
          sack_sb := { sacked_bytes := 0, lost_bytes := 0 },
          rcv_opts := { sack_permitted := true },
          cwnd := 10000, cwnd_acc_bytes := 900, tx_fifo_size := 65536,
          snd_rxt_bytes := 0, rxt_delivered := 0, srtt := 0, mrtt_us := 0 }
        1000 2600).cwnd = min (10000 + (900 + 2600) / 1000 * 1460) 65536 ∧
      (tcp_cwnd_accumulate
        { c_thread_index := 0, c_c_index := 0, state := 4,
          timers := [TCP_TIMER_HANDLE_INVALID, TCP_TIMER_HANDLE_INVALID,
                     TCP_TIMER_HANDLE_INVALID, TCP_TIMER_HANDLE_INVALID,
                     TCP_TIMER_HANDLE_INVALID],
          snd_una := 0, snd_nxt := 0, snd_mss := 1460, rcv_dupacks := 0,
          sack_sb := { sacked_bytes := 0, lost_bytes := 0 },
          rcv_opts := { sack_permitted := true },
          cwnd := 10000, cwnd_acc_bytes := 900, tx_fifo_size := 65536,
          snd_rxt_bytes := 0, rxt_delivered := 0, srtt := 0, mrtt_us := 0 }
        1000 2600).cwnd_acc_bytes = (900 + 2600) % 1000) :=
  ⟨⟨by decide, by decide, by decide⟩,
    (C1_cwnd_accumulate _ 1000 2600 (by decide) (by decide) (by decide)).1
      (by decide)⟩

/-- The external per-worker timer wheel (vppinfra
`tw_timer_wheel_16t_2w_512sl_t`; outside this translation unit), kept
abstract: a state type `W` with the three operations the TCP wrappers
call.  `start w c_index timer_id interval` returns the new handle and the
updated wheel; `stop w handle` and `update w handle interval` return the
updated wheel. -/
structure tw_timer_wheel (W : Type) where
  start : W → Nat → Nat → Nat → Nat × W
  stop : W → Nat → W
  update : W → Nat → Nat → W

/-- The `tcp_timer_set (tc, timer_id, interval)`: asserts the caller is the
owning thread and that the timer is not already running, then starts a
wheel timer and stores its handle.  `ASSERT` failure is `none`. -/
def tcp_timer_set {W : Type} (tw : tw_timer_wheel W) (cur_thread : Nat)
    (tc : tcp_connection_t) (w : W) (timer_id interval : Nat) :
    Option (tcp_connection_t × W) :=
  if tc.c_thread_index ≠ cur_thread then none
  else if tc.timers.getD timer_id 0 ≠ TCP_TIMER_HANDLE_INVALID then none
  else
    let r := tw.start w tc.c_c_index timer_id interval
    some ({ tc with timers := tc.timers.set timer_id r.1 }, r.2)

/-- The `tcp_timer_reset (tc, timer_id)`: asserts the owning thread; if the
stored handle is the invalid sentinel, returns immediately; otherwise
stops the wheel timer and stores the sentinel. -/
def tcp_timer_reset {W : Type} (tw : tw_timer_wheel W) (cur_thread : Nat)
    (tc : tcp_connection_t) (w : W) (timer_id : Nat) :
    Option (tcp_connection_t × W) :=
  if tc.c_thread_index ≠ cur_thread then none
  else if tc.timers.getD timer_id 0 = TCP_TIMER_HANDLE_INVALID then some (tc, w)
  else
    some ({ tc with timers := tc.timers.set timer_id TCP_TIMER_HANDLE_INVALID },
      tw.stop w (tc.timers.getD timer_id 0))

/-- The `tcp_timer_update (tc, timer_id, interval)`: asserts the owning
thread; if the stored handle is valid, updates the wheel timer in place,
otherwise starts a fresh wheel timer and stores its handle. -/
def tcp_timer_update {W : Type} (tw : tw_timer_wheel W) (cur_thread : Nat)
    (tc : tcp_connection_t) (w : W) (timer_id interval : Nat) :
    Option (tcp_connection_t × W) :=
  if tc.c_thread_index ≠ cur_thread then none
  else if tc.timers.getD timer_id 0 ≠ TCP_TIMER_HANDLE_INVALID then
    some (tc, tw.update w (tc.timers.getD timer_id 0) interval)
  else
    let r := tw.start w tc.c_c_index timer_id interval
    some ({ tc with timers := tc.timers.set timer_id r.1 }, r.2)

/-- C2 — On a timer whose stored handle is the invalid sentinel,
`tcp_timer_update (tc, kind, interval)` produces exactly the state
`tcp_timer_set (tc, kind, interval)` would produce (for every wheel, kind
and interval), and `tcp_timer_reset (tc, kind)` leaves the connection and
the wheel unchanged and returns without error. -/
theorem C2_update_inactive_eq_set {W : Type} (tw : tw_timer_wheel W)
    (cur_thread : Nat) (tc : tcp_connection_t) (w : W) (timer_id interval : Nat)
    (hinact : tc.timers.getD timer_id 0 = TCP_TIMER_HANDLE_INVALID)
    (hthread : tc.c_thread_index = cur_thread) :
    tcp_timer_update tw cur_thread tc w timer_id interval =
      tcp_timer_set tw cur_thread tc w timer_id interval ∧
    tcp_timer_reset tw cur_thread tc w timer_id = some (tc, w) := by
  constructor
  · unfold tcp_timer_update tcp_timer_set
    rw [hinact]
    simp
  · unfold tcp_timer_reset
    rw [hinact]
    simp [hthread]

/-- Witness for C2: a concrete two-timer connection with slot 1 inactive,
over a concrete wheel (`W := Nat`, counter-allocated handles). -/
theorem C2_update_inactive_eq_set_witness :
    ([7, TCP_TIMER_HANDLE_INVALID, 9, TCP_TIMER_HANDLE_INVALID,
        TCP_TIMER_HANDLE_INVALID].getD 1 0 = TCP_TIMER_HANDLE_INVALID ∧
      (3 : Nat) = 3) ∧
    (tcp_timer_update
        { start := fun w _ _ _ => (w, w + 1), stop := fun w _ => w,
          update := fun w _ _ => w } 3
        { c_thread_index := 3, c_c_index := 12, state := 4,
          timers := [7, TCP_TIMER_HANDLE_INVALID, 9, TCP_TIMER_HANDLE_INVALID,
                     TCP_TIMER_HANDLE_INVALID],
          snd_una := 0, snd_nxt := 0, snd_mss := 1460, rcv_dupacks := 0,
          sack_sb := { sacked_bytes := 0, lost_bytes := 0 },
          rcv_opts := { sack_permitted := true },
          cwnd := 10000, cwnd_acc_bytes := 0, tx_fifo_size := 65536,
          snd_rxt_bytes := 0, rxt_delivered := 0, srtt := 0, mrtt_us := 0 }
        5 1 20 =
      tcp_timer_set
        { start := fun w _ _ _ => (w, w + 1), stop := fun w _ => w,
          update := fun w _ _ => w } 3
        { c_thread_index := 3, c_c_index := 12, state := 4,
          timers := [7, TCP_TIMER_HANDLE_INVALID, 9, TCP_TIMER_HANDLE_INVALID,
                     TCP_TIMER_HANDLE_INVALID],
          snd_una := 0, snd_nxt := 0, snd_mss := 1460, rcv_dupacks := 0,
          sack_sb := { sacked_bytes := 0, lost_bytes := 0 },
          rcv_opts := { sack_permitted := true },
          cwnd := 10000, cwnd_acc_bytes := 0, tx_fifo_size := 65536,
          snd_rxt_bytes := 0, rxt_delivered := 0, srtt := 0, mrtt_us := 0 }
        5 1 20 ∧
      tcp_timer_reset
        { start := fun w _ _ _ => (w, w + 1), stop := fun w _ => w,
          update := fun w _ _ => w } 3
        { c_thread_index := 3, c_c_index := 12, state := 4,
          timers := [7, TCP_TIMER_HANDLE_INVALID, 9, TCP_TIMER_HANDLE_INVALID,
                     TCP_TIMER_HANDLE_INVALID],
          snd_una := 0, snd_nxt := 0, snd_mss := 1460, rcv_dupacks := 0,
          sack_sb := { sacked_bytes := 0, lost_bytes := 0 },
          rcv_opts := { sack_permitted := true },
          cwnd := 10000, cwnd_acc_bytes := 0, tx_fifo_size := 65536,
          snd_rxt_bytes := 0, rxt_delivered := 0, srtt := 0, mrtt_us := 0 }
        5 1 =
      some
        ({ c_thread_index := 3, c_c_index := 12, state := 4,
           timers := [7, TCP_TIMER_HANDLE_INVALID, 9, TCP_TIMER_HANDLE_INVALID,
                      TCP_TIMER_HANDLE_INVALID],
           snd_una := 0, snd_nxt := 0, snd_mss := 1460, rcv_dupacks := 0,
           sack_sb := { sacked_bytes := 0, lost_bytes := 0 },
           rcv_opts := { sack_permitted := true },
           cwnd := 10000, cwnd_acc_bytes := 0, tx_fifo_size := 65536,
           snd_rxt_bytes := 0, rxt_delivered := 0, srtt := 0, mrtt_us := 0 },
          5)) :=
  ⟨⟨by decide, rfl⟩,
    C2_update_inactive_eq_set _ 3 _ 5 1 20 (by decide) rfl⟩

/-- C3 — `tcp_timer_set` hits its `ASSERT` (fails in debug builds)
exactly when the timer of that kind is already running; when the stored
handle is the invalid sentinel and the wheel never hands out the sentinel
as a handle, the call succeeds and afterwards the stored handle differs
from the sentinel, so the assertion branch is unreachable on an inactive
timer. -/
theorem C3_timer_set_assert {W : Type} (tw : tw_timer_wheel W)
    (cur_thread : Nat) (tc : tcp_connection_t) (w : W) (timer_id interval : Nat)
    (hthread : tc.c_thread_index = cur_thread)
    (hstart : ∀ (w' : W) (c t i : Nat),
      (tw.start w' c t i).1 ≠ TCP_TIMER_HANDLE_INVALID) :
    (tc.timers.getD timer_id 0 ≠ TCP_TIMER_HANDLE_INVALID →
      tcp_timer_set tw cur_thread tc w timer_id interval = none) ∧
    (tc.timers.getD timer_id 0 = TCP_TIMER_HANDLE_INVALID →
      ∃ tc' w', tcp_timer_set tw cur_thread tc w timer_id interval =
          some (tc', w') ∧
        tc'.timers.getD timer_id 0 ≠ TCP_TIMER_HANDLE_INVALID) := by
  constructor
  · intro hrun
    unfold tcp_timer_set
    rw [if_neg (by simp [hthread]), if_pos hrun]
  · intro hinact
    have hset : tcp_timer_set tw cur_thread tc w timer_id interval =
        some ({ tc with
                  timers := tc.timers.set timer_id
                    (tw.start w tc.c_c_index timer_id interval).1 },
          (tw.start w tc.c_c_index timer_id interval).2) := by
      unfold tcp_timer_set
      rw [hinact]
      simp [hthread]
    refine ⟨_, _, hset, ?_⟩
    · have hlen : timer_id < tc.timers.length := by
        by_contra hge
        have : tc.timers.getD timer_id 0 = 0 := by
          simp [List.getD_eq_getElem?_getD,
            List.getElem?_eq_none (by omega : tc.timers.length ≤ timer_id)]
        rw [this] at hinact
        exact absurd hinact (by decide)
      show (tc.timers.set timer_id _).getD timer_id 0 ≠ _
      rw [List.getD_eq_getElem?_getD, List.getElem?_set_eq_of_lt _ (by simpa using hlen)]
      exact hstart w tc.c_c_index timer_id interval

/-- Witness for C3 applied to a connection whose RETRANSMIT slot is
active (assert fires) and whose DELACK slot is inactive (set succeeds and
stores a valid handle). -/
theorem C3_timer_set_assert_witness :
    ((3 : Nat) = 3 ∧
      (∀ (w' c t i : Nat),
        (({ start := fun w _ _ _ => (0, w + 1), stop := fun w _ => w,
            update := fun w _ _ => w } : tw_timer_wheel Nat).start w' c t i).1 ≠
          TCP_TIMER_HANDLE_INVALID) ∧
      [7, TCP_TIMER_HANDLE_INVALID, 9, TCP_TIMER_HANDLE_INVALID,
        TCP_TIMER_HANDLE_INVALID].getD 0 0 ≠ TCP_TIMER_HANDLE_INVALID) ∧
    tcp_timer_set
      { start := fun w _ _ _ => (0, w + 1), stop := fun w _ => w,
        update := fun w _ _ => w } 3
      { c_thread_index := 3, c_c_index := 12, state := 4,
        timers := [7, TCP_TIMER_HANDLE_INVALID, 9, TCP_TIMER_HANDLE_INVALID,
                   TCP_TIMER_HANDLE_INVALID],
        snd_una := 0, snd_nxt := 0, snd_mss := 1460, rcv_dupacks := 0,
        sack_sb := { sacked_bytes := 0, lost_bytes := 0 },
        rcv_opts := { sack_permitted := true },
        cwnd := 10000, cwnd_acc_bytes := 0, tx_fifo_size := 65536,
        snd_rxt_bytes := 0, rxt_delivered := 0, srtt := 0, mrtt_us := 0 }
      5 0 20 = none :=
  ⟨⟨rfl, fun _ _ _ _ => by simp [TCP_TIMER_HANDLE_INVALID], by decide⟩,
    (C3_timer_set_assert
      { start := fun w _ _ _ => (0, w + 1), stop := fun w _ => w,
        update := fun w _ _ => w } 3 _ 5 0 20 rfl
      (fun _ _ _ _ => by simp [TCP_TIMER_HANDLE_INVALID])).1 (by decide)⟩

/-- The `u32add` always lands below the `u32` modulus. -/
theorem u32add_lt (a b : Nat) : u32add a b < u32M :=
  Nat.mod_lt _ (by decide)

/-- The `u32sub` always lands below the `u32` modulus. -/
theorem u32sub_lt (a b : Nat) : u32sub a b < u32M :=
  Nat.mod_lt _ (by decide)

/-- A convenient fully populated connection used by concrete witnesses. -/
def tc0 : tcp_connection_t :=
  { c_thread_index := 3, c_c_index := 12, state := 4,
    timers := [TCP_TIMER_HANDLE_INVALID, TCP_TIMER_HANDLE_INVALID,
               TCP_TIMER_HANDLE_INVALID, TCP_TIMER_HANDLE_INVALID,
               TCP_TIMER_HANDLE_INVALID],
    snd_una := 1000, snd_nxt := 5000, snd_mss := 1460, rcv_dupacks := 0,
    sack_sb := { sacked_bytes := 0, lost_bytes := 0 },
    rcv_opts := { sack_permitted := true },
    cwnd := 10000, cwnd_acc_bytes := 0, tx_fifo_size := 65536,
    snd_rxt_bytes := 0, rxt_delivered := 0, srtt := 1000, mrtt_us := 1 / 2 }

/-- The `tcp_cc_get_pacing_rate (tc)`:
```
if (tc->cc_algo->get_pacing_rate)
  return tc->cc_algo->get_pacing_rate (tc);
f64 srtt = clib_min ((f64) tc->srtt * TCP_TICK, tc->mrtt_us);
return ((f64) tc->cwnd / srtt);
```
The vtable hook `tc->cc_algo->get_pacing_rate` is passed as an explicit
`Option`al function (the `tcp_cc_algorithm_t` vtable lives behind a
pointer and cannot be a field of the connection record here); the f64
quotient is modelled in ℚ and the implicit conversion to the `u64` return
type truncates. -/
def tcp_cc_get_pacing_rate (get_pacing_rate_hook : Option (tcp_connection_t → Nat))
    (tc : tcp_connection_t) : Nat :=
  match get_pacing_rate_hook with
  | some f => f tc
  | none =>
    let srtt : ℚ := min ((tc.srtt : ℚ) * TCP_TICK) tc.mrtt_us
    (⌊(tc.cwnd : ℚ) / srtt⌋).toNat

/-- C4 counterexample — the claim "when the hook is absent the result
is `cwnd / smoothed_rtt`" is false: with `cwnd = 10000`, `srtt = 1000`
ticks (1 s) and a measured `mrtt_us = 1/2` s, the code divides by
`min (srtt · TCP_TICK, mrtt_us) = 1/2` and returns `20000`, while
`cwnd / smoothed_rtt` is `10000` (seconds reading; the raw-ticks reading
`cwnd / srtt = 10` differs as well). -/
theorem C4_get_pacing_rate_counterexample :
    tcp_cc_get_pacing_rate none tc0 = 20000 ∧
    (⌊(tc0.cwnd : ℚ) / ((tc0.srtt : ℚ) * TCP_TICK)⌋).toNat = 10000 ∧
    tc0.cwnd / tc0.srtt = 10 ∧
    (20000 : Nat) ≠ 10000 ∧ (20000 : Nat) ≠ 10 := by
  refine ⟨?_, ?_, by decide, by decide, by decide⟩
  · show (⌊(tc0.cwnd : ℚ) / min ((tc0.srtt : ℚ) * TCP_TICK) tc0.mrtt_us⌋).toNat = 20000
    have h : ⌊(tc0.cwnd : ℚ) / min ((tc0.srtt : ℚ) * TCP_TICK) tc0.mrtt_us⌋ =
        20000 := by
      norm_num [tc0, TCP_TICK]
    rw [h]
    rfl
  · have h : ⌊(tc0.cwnd : ℚ) / ((tc0.srtt : ℚ) * TCP_TICK)⌋ = 10000 := by
      norm_num [tc0, TCP_TICK]
    rw [h]
    rfl

/-- C4 amended — when the hook is provided its result is returned;
when it is absent, the returned rate `r` is the congestion window divided
by the *effective* RTT `min (srtt · TCP_TICK, mrtt_us)` (smoothed RTT in
seconds capped by the measured minimum RTT), truncated to an integer:
`r · rtt ≤ cwnd < (r + 1) · rtt`. -/
theorem C4_get_pacing_rate_amended
    (hook : Option (tcp_connection_t → Nat)) (tc : tcp_connection_t)
    (f : tcp_connection_t → Nat) :
    (hook = some f → tcp_cc_get_pacing_rate hook tc = f tc) ∧
    (hook = none →
      0 < min ((tc.srtt : ℚ) * TCP_TICK) tc.mrtt_us →
      (tcp_cc_get_pacing_rate hook tc : ℚ) *
          min ((tc.srtt : ℚ) * TCP_TICK) tc.mrtt_us ≤ (tc.cwnd : ℚ) ∧
        (tc.cwnd : ℚ) <
          ((tcp_cc_get_pacing_rate hook tc : ℚ) + 1) *
            min ((tc.srtt : ℚ) * TCP_TICK) tc.mrtt_us) := by
  constructor
  · intro hf
    rw [hf]
    rfl
  · intro hn hpos
    rw [hn]
    have hval : tcp_cc_get_pacing_rate none tc =
        (⌊(tc.cwnd : ℚ) / min ((tc.srtt : ℚ) * TCP_TICK) tc.mrtt_us⌋).toNat := rfl
    rw [hval]
    set s : ℚ := min ((tc.srtt : ℚ) * TCP_TICK) tc.mrtt_us with hs
    set q : ℚ := (tc.cwnd : ℚ) / s with hq
    have hq0 : 0 ≤ q := div_nonneg (Nat.cast_nonneg _) hpos.le
    have hfl0 : 0 ≤ ⌊q⌋ := Int.floor_nonneg.mpr hq0
    have hcast : ((⌊q⌋.toNat : Nat) : ℚ) = (⌊q⌋ : ℚ) := by
      exact_mod_cast congrArg (fun z : Int => (z : ℚ)) (Int.toNat_of_nonneg hfl0)
    have hcwnd : q * s = (tc.cwnd : ℚ) := div_mul_cancel₀ _ (ne_of_gt hpos)
    constructor
    · rw [hcast]
      calc (⌊q⌋ : ℚ) * s ≤ q * s :=
            mul_le_mul_of_nonneg_right (Int.floor_le q) hpos.le
        _ = (tc.cwnd : ℚ) := hcwnd
    · rw [hcast]
      calc (tc.cwnd : ℚ) = q * s := hcwnd.symm
        _ < ((⌊q⌋ : ℚ) + 1) * s :=
            mul_lt_mul_of_pos_right (Int.lt_floor_add_one q) hpos

/-- Witness for C4 (amended): both branches exercised on `tc0`
(`min (srtt · TCP_TICK, mrtt_us) = 1/2 > 0`). -/
theorem C4_get_pacing_rate_amended_witness :
    ((some (fun _ : tcp_connection_t => (42 : Nat)) =
        some (fun _ : tcp_connection_t => (42 : Nat))) ∧
      tcp_cc_get_pacing_rate (some (fun _ : tcp_connection_t => (42 : Nat)))
        tc0 = 42) ∧
    ((none : Option (tcp_connection_t → Nat)) = none ∧
      (0 : ℚ) < min ((tc0.srtt : ℚ) * TCP_TICK) tc0.mrtt_us ∧
      ((tcp_cc_get_pacing_rate none tc0 : ℚ) *
          min ((tc0.srtt : ℚ) * TCP_TICK) tc0.mrtt_us ≤ (tc0.cwnd : ℚ) ∧
        (tc0.cwnd : ℚ) <
          ((tcp_cc_get_pacing_rate none tc0 : ℚ) + 1) *
            min ((tc0.srtt : ℚ) * TCP_TICK) tc0.mrtt_us)) :=
  ⟨⟨rfl,
    (C4_get_pacing_rate_amended (some (fun _ => 42)) tc0 (fun _ => 42)).1 rfl⟩,
    rfl, by norm_num [tc0, TCP_TICK],
    (C4_get_pacing_rate_amended none tc0 (fun _ => 42)).2 rfl
      (by norm_num [tc0, TCP_TICK])⟩

/-- The `tcp_opts_sack_permitted`: the SACK-permitted flag test on parsed
options (a bit test in tcp_packet.h; the boolean is carried directly). -/
def tcp_opts_sack_permitted (opts : tcp_options_t) : Bool :=
  opts.sack_permitted

/-- The `tcp_bytes_out (tc)`:
```
if (tcp_opts_sack_permitted (&tc->rcv_opts))
  return tc->sack_sb.sacked_bytes + tc->sack_sb.lost_bytes;
else
  return clib_min (tc->rcv_dupacks * tc->snd_mss,
                   tc->snd_nxt - tc->snd_una);
```
The sum and the sequence difference are `u32`; `rcv_dupacks * snd_mss`
is a `u16 × u16` product computed in `int` (never wraps). -/
def tcp_bytes_out (tc : tcp_connection_t) : Nat :=
  if tcp_opts_sack_permitted tc.rcv_opts then
    u32add tc.sack_sb.sacked_bytes tc.sack_sb.lost_bytes
  else
    min (tc.rcv_dupacks * tc.snd_mss) (u32sub tc.snd_nxt tc.snd_una)

/-- The `tcp_flight_size (tc)`:
```
int flight_size;
flight_size = (int) (tc->snd_nxt - tc->snd_una) - tcp_bytes_out (tc)
  + tc->snd_rxt_bytes - tc->rxt_delivered;
ASSERT (flight_size >= 0);
return flight_size;
```
The mixed `int`/`u32` expression is computed modulo `2^32` (C usual
arithmetic conversions) and then read back as a signed `int`; the
`ASSERT` failure is `none`. -/
def tcp_flight_size (tc : tcp_connection_t) : Option Nat :=
  let fs := toI32 (u32sub (u32add (u32sub (u32sub tc.snd_nxt tc.snd_una)
    (tcp_bytes_out tc)) tc.snd_rxt_bytes) tc.rxt_delivered)
  if 0 ≤ fs then some fs.toNat else none

/-- The flight size as the exact integer the claim describes:
`(snd_nxt - snd_una) - tcp_bytes_out + snd_rxt_bytes - rxt_delivered`
(the sequence difference taken as the `u32` wrap distance). -/
def flight_size_int (tc : tcp_connection_t) : Int :=
  (u32sub tc.snd_nxt tc.snd_una : Int) - (tcp_bytes_out tc : Int) +
    (tc.snd_rxt_bytes : Int) - (tc.rxt_delivered : Int)

/-- The `u32`-range bounds every live connection satisfies (each embedded
field stores a machine integer of the corresponding width). -/
def tcp_connection_u32_wf (tc : tcp_connection_t) : Prop :=
  tc.snd_una < u32M ∧ tc.snd_nxt < u32M ∧ tc.snd_mss < 65536 ∧
    tc.rcv_dupacks < 65536 ∧ tc.sack_sb.sacked_bytes < u32M ∧
    tc.sack_sb.lost_bytes < u32M ∧ tc.snd_rxt_bytes < u32M ∧
    tc.rxt_delivered < u32M

instance (tc : tcp_connection_t) : Decidable (tcp_connection_u32_wf tc) := by
  unfold tcp_connection_u32_wf
  infer_instance

/-- C5 — `tcp_flight_size` returns exactly
`(snd_nxt - snd_una) - tcp_bytes_out + snd_rxt_bytes - rxt_delivered`
when that quantity is non-negative (and representable as an `int`), and
fails the debug `ASSERT` (returns `none` here) when it is negative, so a
negative flight size fails loudly instead of being returned; and
`tcp_bytes_out` is `sacked_bytes + lost_bytes` when SACK is permitted and
`min (rcv_dupacks · snd_mss, snd_nxt - snd_una)` otherwise. -/
theorem C5_flight_size (tc : tcp_connection_t)
    (hwf : tcp_connection_u32_wf tc) :
    (tcp_opts_sack_permitted tc.rcv_opts = true →
      tcp_bytes_out tc =
        (tc.sack_sb.sacked_bytes + tc.sack_sb.lost_bytes) % u32M) ∧
    (tcp_opts_sack_permitted tc.rcv_opts = false →
      tcp_bytes_out tc =
        min (tc.rcv_dupacks * tc.snd_mss) (u32sub tc.snd_nxt tc.snd_una)) ∧
    (0 ≤ flight_size_int tc → flight_size_int tc < 2147483648 →
      tcp_flight_size tc = some (flight_size_int tc).toNat) ∧
    (-2147483648 ≤ flight_size_int tc → flight_size_int tc < 0 →
      tcp_flight_size tc = none) := by
  obtain ⟨h1, h2, h3, h4, h5, h6, h7, h8⟩ := hwf
  have hblt : tcp_bytes_out tc < u32M := by
    unfold tcp_bytes_out
    split_ifs
    · exact u32add_lt _ _
    · exact lt_of_le_of_lt (min_le_right _ _) (u32sub_lt _ _)
  refine ⟨?_, ?_, ?_, ?_⟩
  · intro hs
    simp [tcp_bytes_out, hs, u32add]
  · intro hs
    simp [tcp_bytes_out, hs]
  · intro ha hb
    unfold tcp_flight_size flight_size_int at *
    generalize hgb : tcp_bytes_out tc = b at *
    simp only [toI32, u32add, u32sub, u32M] at *
    split_ifs <;> first
      | (simp only [Option.some.injEq]; omega)
      | (exfalso; omega)
  · intro ha hb
    unfold tcp_flight_size flight_size_int at *
    generalize hgb : tcp_bytes_out tc = b at *
    simp only [toI32, u32add, u32sub, u32M] at *
    split_ifs <;> first
      | rfl
      | (exfalso; omega)

/-- Witness for C5 on `tc0` with SACK permitted, 1500 sacked bytes:
flight size `4000 - 1500 = 2500`. -/
theorem C5_flight_size_witness :
    (tcp_connection_u32_wf
        { tc0 with sack_sb := { sacked_bytes := 1500, lost_bytes := 0 } } ∧
      0 ≤ flight_size_int
        { tc0 with sack_sb := { sacked_bytes := 1500, lost_bytes := 0 } } ∧
      flight_size_int
        { tc0 with sack_sb := { sacked_bytes := 1500, lost_bytes := 0 } } <
        2147483648) ∧
    tcp_flight_size
        { tc0 with sack_sb := { sacked_bytes := 1500, lost_bytes := 0 } } =
      some (flight_size_int
        { tc0 with sack_sb := { sacked_bytes := 1500, lost_bytes := 0 } }).toNat :=
  ⟨⟨by decide, by decide, by decide⟩,
    (C5_flight_size _ (by decide)).2.2.1 (by decide) (by decide)⟩

/-- The `tcp_timer_is_active (tc, timer)`:
`return tc->timers[timer] != TCP_TIMER_HANDLE_INVALID;`. -/
def tcp_timer_is_active (tc : tcp_connection_t) (timer : tcp_timers_e) : Bool :=
  tc.timers.getD timer.code 0 != TCP_TIMER_HANDLE_INVALID

/-- Writing one slot of a timer array leaves every other slot unchanged. -/
theorem timers_getD_set_ne (l : List Nat) (i j v d : Nat) (h : i ≠ j) :
    (l.set i v).getD j d = l.getD j d := by
  rw [List.getD_eq_getElem?_getD, List.getElem?_set_ne h,
    ← List.getD_eq_getElem?_getD]

/-- C6 — The FSM has exactly 11 states (`TCP_N_STATES = 11`) named
CLOSED..TIME_WAIT in RFC793 order with consecutive codes 0..10, and
segment dispatch uses a fully enumerated `TCP_N_STATES × 64` table
(`11 × 64 = 704` entries), each entry yielding a next-node and an error
code. -/
theorem C6_fsm_states_and_dispatch :
    TCP_N_STATES = 11 ∧
    tcp_fsm_states =
      [tcp_state_t.CLOSED, tcp_state_t.LISTEN, tcp_state_t.SYN_SENT,
       tcp_state_t.SYN_RCVD, tcp_state_t.ESTABLISHED, tcp_state_t.CLOSE_WAIT,
       tcp_state_t.FIN_WAIT_1, tcp_state_t.LAST_ACK, tcp_state_t.CLOSING,
       tcp_state_t.FIN_WAIT_2, tcp_state_t.TIME_WAIT] ∧
    tcp_fsm_states.Nodup ∧
    (∀ s : tcp_state_t, s ∈ tcp_fsm_states) ∧
    (∀ s : tcp_state_t, tcp_fsm_states.getD s.code tcp_state_t.CLOSED = s) ∧
    Fintype.card tcp_state_t = TCP_N_STATES ∧
    Fintype.card (Fin TCP_N_STATES × Fin 64) = 704 ∧
    (∀ (dt : tcp_dispatch_table) (s : Fin TCP_N_STATES) (f : Fin 64),
      ∃ e : tcp_lookup_dispatch_t, dt s f = e) := by
  refine ⟨by decide, by decide, by decide, by decide, by decide, by decide,
    by simp [TCP_N_STATES, tcp_fsm_states], ?_⟩
  intro dt s f
  exact ⟨dt s f, rfl⟩

/-- C7 — There are exactly five timer kinds (`TCP_N_TIMERS = 5`) in
the order RETRANSMIT, DELACK, PERSIST, WAITCLOSE, RETRANSMIT_SYN; each
connection has one `u32` handle slot per kind; `tcp_timer_is_active`
holds iff the slot differs from `TCP_TIMER_HANDLE_INVALID`; and each of
`tcp_timer_set` / `tcp_timer_reset` / `tcp_timer_update` keeps one slot
per kind (array length unchanged) and touches no slot of any other kind,
so at most one active handle exists per kind. -/
theorem C7_timer_kinds_invariants :
    TCP_N_TIMERS = 5 ∧
    tcp_timer_kinds =
      [tcp_timers_e.RETRANSMIT, tcp_timers_e.DELACK, tcp_timers_e.PERSIST,
       tcp_timers_e.WAITCLOSE, tcp_timers_e.RETRANSMIT_SYN] ∧
    tcp_timer_kinds.Nodup ∧
    Fintype.card tcp_timers_e = TCP_N_TIMERS ∧
    (∀ (tc : tcp_connection_t) (k : tcp_timers_e),
      tcp_timer_is_active tc k = true ↔
        tc.timers.getD k.code 0 ≠ TCP_TIMER_HANDLE_INVALID) ∧
    (∀ (W : Type) (tw : tw_timer_wheel W) (ct : Nat) (tc : tcp_connection_t)
      (w : W) (tid ivl : Nat) (tc' : tcp_connection_t) (w' : W),
      tcp_timer_set tw ct tc w tid ivl = some (tc', w') →
        tc'.timers.length = tc.timers.length ∧
        ∀ k : Nat, k ≠ tid → tc'.timers.getD k 0 = tc.timers.getD k 0) ∧
    (∀ (W : Type) (tw : tw_timer_wheel W) (ct : Nat) (tc : tcp_connection_t)
      (w : W) (tid : Nat) (tc' : tcp_connection_t) (w' : W),
      tcp_timer_reset tw ct tc w tid = some (tc', w') →
        tc'.timers.length = tc.timers.length ∧
        ∀ k : Nat, k ≠ tid → tc'.timers.getD k 0 = tc.timers.getD k 0) ∧
    (∀ (W : Type) (tw : tw_timer_wheel W) (ct : Nat) (tc : tcp_connection_t)
      (w : W) (tid ivl : Nat) (tc' : tcp_connection_t) (w' : W),
      tcp_timer_update tw ct tc w tid ivl = some (tc', w') →
        tc'.timers.length = tc.timers.length ∧
        ∀ k : Nat, k ≠ tid → tc'.timers.getD k 0 = tc.timers.getD k 0) := by
  refine ⟨by decide, by decide, by decide, by decide, ?_, ?_, ?_, ?_⟩
  · intro tc k
    simp [tcp_timer_is_active]
  · intro W tw ct tc w tid ivl tc' w' h
    unfold tcp_timer_set at h
    split_ifs at h
    obtain ⟨h2, h3⟩ := Prod.ext_iff.mp (Option.some.inj h)
    subst h2
    exact ⟨List.length_set _ _ _, fun k hk =>
      timers_getD_set_ne _ _ _ _ _ (fun he => hk he.symm)⟩
  · intro W tw ct tc w tid tc' w' h
    unfold tcp_timer_reset at h
    split_ifs at h
    · obtain ⟨h2, h3⟩ := Prod.ext_iff.mp (Option.some.inj h)
      subst h2
      exact ⟨rfl, fun k _ => rfl⟩
    · obtain ⟨h2, h3⟩ := Prod.ext_iff.mp (Option.some.inj h)
      subst h2
      exact ⟨List.length_set _ _ _, fun k hk =>
        timers_getD_set_ne _ _ _ _ _ (fun he => hk he.symm)⟩
  · intro W tw ct tc w tid ivl tc' w' h
    unfold tcp_timer_update at h
    split_ifs at h
    · obtain ⟨h2, h3⟩ := Prod.ext_iff.mp (Option.some.inj h)
      subst h2
      exact ⟨rfl, fun k _ => rfl⟩
    · obtain ⟨h2, h3⟩ := Prod.ext_iff.mp (Option.some.inj h)
      subst h2
      exact ⟨List.length_set _ _ _, fun k hk =>
        timers_getD_set_ne _ _ _ _ _ (fun he => hk he.symm)⟩

/-- Witness for C7: the `is_active` equivalence checked on `tc0` (all
slots inactive), and slot preservation for a concrete `tcp_timer_set`
call on the PERSIST slot. -/
theorem C7_timer_kinds_invariants_witness :
    (tcp_timer_is_active tc0 tcp_timers_e.RETRANSMIT = true ↔
      tc0.timers.getD tcp_timers_e.RETRANSMIT.code 0 ≠
        TCP_TIMER_HANDLE_INVALID) ∧
    (tcp_timer_set
        { start := fun w _ _ _ => (0, w + 1), stop := fun w _ => w,
          update := fun w _ _ => w } 3 tc0 5 2 20 =
      some ({ tc0 with timers := tc0.timers.set 2 0 }, 6) ∧
      ({ tc0 with timers := tc0.timers.set 2 0 }).timers.length =
        tc0.timers.length ∧
      (0 : Nat) ≠ 2 ∧
      ({ tc0 with timers := tc0.timers.set 2 0 }).timers.getD 0 0 =
        tc0.timers.getD 0 0) := by
  have hset : tcp_timer_set
      { start := fun w _ _ _ => (0, w + 1), stop := fun w _ => w,
        update := fun w _ _ => w } 3 tc0 5 2 20 =
      some ({ tc0 with timers := tc0.timers.set 2 0 }, 6) := rfl
  have hpres := (C7_timer_kinds_invariants.2.2.2.2.2.1) Nat
    { start := fun w _ _ _ => (0, w + 1), stop := fun w _ => w,
      update := fun w _ _ => w } 3 tc0 5 2 20
    { tc0 with timers := tc0.timers.set 2 0 } 6 hset
  exact ⟨(C7_timer_kinds_invariants.2.2.2.2.1) tc0 tcp_timers_e.RETRANSMIT,
    hset, hpres.1, by decide, hpres.2 0 (by decide)⟩

/-- C8 — `TCP_RTO_MIN = 0.2 · THZ = 200` (200 ms in 1 ms ticks),
which is below the RFC6298-recommended 1 s minimum (`THZ` ticks, i.e.
`TCP_RTO_MIN · TCP_TICK < 1` s), and strictly exceeds one timer tick:
`TCP_RTO_MIN · TCP_TICK = 0.2 s > TCP_TIMER_TICK = 0.1 s`. -/
theorem C8_rto_min_constants :
    TCP_RTO_MIN = 200 ∧
    THZ = 1000 ∧
    TCP_RTO_MIN * TCP_TICK = 2 / 10 ∧
    TCP_RTO_MIN * TCP_TICK < 1 ∧
    TCP_TIMER_TICK < TCP_RTO_MIN * TCP_TICK := by
  have hfl : ⌊(1 : ℚ) / TCP_TICK⌋ = 1000 := by norm_num [TCP_TICK]
  have hthz : THZ = 1000 := by
    unfold THZ
    rw [hfl]
    rfl
  refine ⟨?_, hthz, ?_, ?_, ?_⟩ <;>
    norm_num [TCP_RTO_MIN, hthz, TCP_TICK, TCP_TIMER_TICK]

/-- vppinfra `pool_is_free_index (P, I)` on a connection pool: an index is
free when it is beyond the vector length or its slot is not allocated (a
null pool behaves as an empty vector).  A pool is a slot list where
`none` marks a free slot. -/
def pool_is_free_index (p : List (Option tcp_connection_t)) (i : Nat) : Bool :=
  match p.getD i none with
  | none => true
  | some _ => false

/-- The two pool fields of `tcp_main_t` the connection getters read:
per-thread connection pools (`tcp_connection_t **connections`, a possibly
null pool pointer per thread) and the half-open pool (its spinlock is a
no-op in this sequential model). -/
structure tcp_main_t where
  connections : List (Option (List (Option tcp_connection_t)))
  half_open_connections : List (Option tcp_connection_t)

/-- The `tcp_connection_get (conn_index, thread_index)`:
```
if (PREDICT_FALSE
    (pool_is_free_index (tcp_main.connections[thread_index], conn_index)))
  return 0;
return pool_elt_at_index (tcp_main.connections[thread_index], conn_index);
```
(On a null per-thread pool, `pool_is_free_index` reports free, so the
function returns 0 without dereferencing.) -/
def tcp_connection_get (tm : tcp_main_t) (conn_index thread_index : Nat) :
    Option tcp_connection_t :=
  match tm.connections.getD thread_index none with
  | none => none
  | some p =>
    if pool_is_free_index p conn_index then none
    else p.getD conn_index none

/-- The `tcp_connection_get_if_valid (conn_index, thread_index)`: additionally
returns 0 when the per-thread pool itself does not exist. -/
def tcp_connection_get_if_valid (tm : tcp_main_t)
    (conn_index thread_index : Nat) : Option tcp_connection_t :=
  match tm.connections.getD thread_index none with
  | none => none
  | some p =>
    if pool_is_free_index p conn_index then none
    else p.getD conn_index none

/-- The `tcp_half_open_connection_get (conn_index)`: under the half-open
spinlock, returns 0 unless the index is allocated in the half-open
pool. -/
def tcp_half_open_connection_get (tm : tcp_main_t) (conn_index : Nat) :
    Option tcp_connection_t :=
  if pool_is_free_index tm.half_open_connections conn_index then none
  else tm.half_open_connections.getD conn_index none

/-- C9 — `tcp_connection_get` returns null on any index that is free
in the thread's pool and only ever returns a record stored in an
allocated slot; `tcp_connection_get_if_valid` additionally returns null
when the thread's pool does not exist; `tcp_half_open_connection_get`
returns null on any index free in the half-open pool. -/
theorem C9_connection_getters :
    (∀ (tm : tcp_main_t) (ci ti : Nat) (p : List (Option tcp_connection_t)),
      tm.connections.getD ti none = some p →
      pool_is_free_index p ci = true →
      tcp_connection_get tm ci ti = none) ∧
    (∀ (tm : tcp_main_t) (ci ti : Nat) (c : tcp_connection_t),
      tcp_connection_get tm ci ti = some c →
      ∃ p, tm.connections.getD ti none = some p ∧ p.getD ci none = some c) ∧
    (∀ (tm : tcp_main_t) (ci ti : Nat),
      tm.connections.getD ti none = none →
      tcp_connection_get_if_valid tm ci ti = none) ∧
    (∀ (tm : tcp_main_t) (ci ti : Nat) (p : List (Option tcp_connection_t)),
      tm.connections.getD ti none = some p →
      pool_is_free_index p ci = true →
      tcp_connection_get_if_valid tm ci ti = none) ∧
    (∀ (tm : tcp_main_t) (ci : Nat),
      pool_is_free_index tm.half_open_connections ci = true →
      tcp_half_open_connection_get tm ci = none) := by
  refine ⟨?_, ?_, ?_, ?_, ?_⟩
  · intro tm ci ti p hp hfree
    unfold tcp_connection_get
    rw [hp]
    simp [hfree]
  · intro tm ci ti c h
    unfold tcp_connection_get at h
    cases hp : tm.connections.getD ti none with
    | none => rw [hp] at h; exact absurd h (by simp)
    | some p =>
      rw [hp] at h
      refine ⟨p, rfl, ?_⟩
      have h' : (if pool_is_free_index p ci = true then none
          else p.getD ci none) = some c := h
      by_cases hfree : pool_is_free_index p ci = true
      · rw [if_pos hfree] at h'
        exact absurd h' (by simp)
      · rwa [if_neg hfree] at h'
  · intro tm ci ti hp
    unfold tcp_connection_get_if_valid
    rw [hp]
  · intro tm ci ti p hp hfree
    unfold tcp_connection_get_if_valid
    rw [hp]
    simp [hfree]
  · intro tm ci hfree
    unfold tcp_half_open_connection_get
    simp [hfree]

/-- A concrete two-thread main for the C9 witness: thread 0 owns a pool
whose slot 0 is free, thread 1 has no pool, and the half-open pool's only
slot is free. -/
def tm0 : tcp_main_t :=
  { connections := [some [none, some tc0], none],
    half_open_connections := [none] }

/-- Witness for C9 on `tm0`. -/
theorem C9_connection_getters_witness :
    (tm0.connections.getD 0 none = some [none, some tc0] ∧
      pool_is_free_index [none, some tc0] 0 = true ∧
      tm0.connections.getD 1 none = none ∧
      pool_is_free_index tm0.half_open_connections 0 = true) ∧
    (tcp_connection_get tm0 0 0 = none ∧
      tcp_connection_get_if_valid tm0 0 1 = none ∧
      tcp_half_open_connection_get tm0 0 = none) :=
  ⟨⟨rfl, rfl, rfl, rfl⟩,
    C9_connection_getters.1 tm0 0 0 [none, some tc0] rfl rfl,
    C9_connection_getters.2.2.1 tm0 0 1 rfl,
    C9_connection_getters.2.2.2.2 tm0 0 rfl⟩

/-- The `#define seq_lt(_s1, _s2) ((i32)((_s1)-(_s2)) < 0)`. -/
def seq_lt (s1 s2 : Nat) : Bool := decide (toI32 (u32sub s1 s2) < 0)

/-- The `#define seq_leq(_s1, _s2) ((i32)((_s1)-(_s2)) <= 0)`. -/
def seq_leq (s1 s2 : Nat) : Bool := decide (toI32 (u32sub s1 s2) ≤ 0)

/-- The `#define seq_gt(_s1, _s2) ((i32)((_s1)-(_s2)) > 0)`. -/
def seq_gt (s1 s2 : Nat) : Bool := decide (0 < toI32 (u32sub s1 s2))

/-- The `#define seq_geq(_s1, _s2) ((i32)((_s1)-(_s2)) >= 0)`. -/
def seq_geq (s1 s2 : Nat) : Bool := decide (0 ≤ toI32 (u32sub s1 s2))

/-- The `#define seq_max(_s1, _s2) (seq_gt((_s1), (_s2)) ? (_s1) : (_s2))`. -/
def seq_max (s1 s2 : Nat) : Nat := if seq_gt s1 s2 then s1 else s2

/-- The `seq_lt` holds exactly when the wrap distance is at least `2^31`. -/
theorem seq_lt_iff (a b : Nat) :
    seq_lt a b = true ↔ 2147483648 ≤ u32sub a b := by
  have h := u32sub_lt a b
  simp only [seq_lt, toI32, decide_eq_true_eq, u32M] at *
  split_ifs with hc <;> omega

/-- The `seq_gt` holds exactly when the wrap distance is strictly between `0`
and `2^31`. -/
theorem seq_gt_iff (a b : Nat) :
    seq_gt a b = true ↔ (0 < u32sub a b ∧ u32sub a b < 2147483648) := by
  have h := u32sub_lt a b
  simp only [seq_gt, toI32, decide_eq_true_eq, u32M] at *
  split_ifs with hc <;> omega

/-- The `seq_geq` holds exactly when the wrap distance is below `2^31`. -/
theorem seq_geq_iff (a b : Nat) :
    seq_geq a b = true ↔ u32sub a b < 2147483648 := by
  have h := u32sub_lt a b
  simp only [seq_geq, toI32, decide_eq_true_eq, u32M] at *
  split_ifs with hc <;> omega

/-- The wrap distance from a value to itself is zero. -/
theorem u32sub_self (a : Nat) : u32sub a a = 0 := by
  simp only [u32sub, u32M]
  omega

/-- For distinct in-range values the two wrap distances sum to `2^32`. -/
theorem u32sub_add_u32sub (a b : Nat) (h1 : a < u32M) (h2 : b < u32M)
    (hne : a ≠ b) : u32sub a b + u32sub b a = u32M := by
  simp only [u32sub, u32M] at *
  omega

/-- C10 — On any window below `2^31` the sequence comparisons are a
strict order: `seq_lt` is irreflexive; for in-range `s1 ≠ s2` whose wrap
distance is not exactly `2^31`, exactly one of `seq_lt s1 s2` and
`seq_gt s1 s2` holds and `seq_lt s1 s2 ↔ seq_gt s2 s1`; and `seq_max`
returns one of its arguments and is `seq_geq` both. -/
theorem C10_seq_order (s1 s2 : Nat) (h1 : s1 < u32M) (h2 : s2 < u32M)
    (hne : s1 ≠ s2) (hmid : u32sub s1 s2 ≠ 2147483648) :
    (∀ s : Nat, seq_lt s s = false) ∧
    (seq_lt s1 s2 = true ↔ seq_gt s2 s1 = true) ∧
    ((seq_lt s1 s2 = true ∧ seq_gt s1 s2 = false) ∨
      (seq_lt s1 s2 = false ∧ seq_gt s1 s2 = true)) ∧
    (seq_max s1 s2 = s1 ∨ seq_max s1 s2 = s2) ∧
    seq_geq (seq_max s1 s2) s1 = true ∧
    seq_geq (seq_max s1 s2) s2 = true := by
  have hd := u32sub_lt s1 s2
  have he := u32sub_lt s2 s1
  have hsum := u32sub_add_u32sub s1 s2 h1 h2 hne
  have hM : u32M = 4294967296 := rfl
  refine ⟨?_, ?_, ?_, ?_, ?_, ?_⟩
  · intro s
    have h3 := u32sub_self s
    rw [Bool.eq_false_iff, ne_eq, seq_lt_iff, h3]
    omega
  · rw [seq_lt_iff, seq_gt_iff]
    omega
  · by_cases hc : 2147483648 ≤ u32sub s1 s2
    · refine Or.inl ⟨(seq_lt_iff _ _).mpr hc, ?_⟩
      rw [Bool.eq_false_iff, ne_eq, seq_gt_iff]
      omega
    · refine Or.inr ⟨?_, ?_⟩
      · rw [Bool.eq_false_iff, ne_eq, seq_lt_iff]
        omega
      · rw [seq_gt_iff]
        omega
  · unfold seq_max
    split_ifs
    · exact Or.inl rfl
    · exact Or.inr rfl
  · unfold seq_max
    split_ifs with hg
    · rw [seq_geq_iff, u32sub_self]
      omega
    · rw [seq_geq_iff]
      rw [seq_gt_iff] at hg
      omega
  · unfold seq_max
    split_ifs with hg
    · rw [seq_geq_iff]
      rw [seq_gt_iff] at hg
      omega
    · rw [seq_geq_iff, u32sub_self]
      omega

/-- Witness for C10 at `s1 = 100`, `s2 = 200`: wrap distance
`2^32 - 100`, not the ambiguous midpoint. -/
theorem C10_seq_order_witness :
    (100 < u32M ∧ 200 < u32M ∧ (100 : Nat) ≠ 200 ∧
      u32sub 100 200 ≠ 2147483648) ∧
    (seq_lt 100 200 = true ↔ seq_gt 200 100 = true) ∧
    ((seq_lt 100 200 = true ∧ seq_gt 100 200 = false) ∨
      (seq_lt 100 200 = false ∧ seq_gt 100 200 = true)) :=
  ⟨⟨by decide, by decide, by decide, by decide⟩,
    (C10_seq_order 100 200 (by decide) (by decide) (by decide) (by decide)).2.1,
    (C10_seq_order 100 200 (by decide) (by decide) (by decide) (by decide)).2.2.1⟩
